import Mathlib

/-!
Verification of the suitability-scoring and geometry-partitioning engine of
the solar_kharda repository (source: src/unnamed/part_000).

Modelling conventions:
* JavaScript numbers are modelled as exact rationals (`ℚ`); every arithmetic
  operation used by the engine (+, -, *, /, min, max, abs, comparisons) is
  translated literally.  Possibly-absent values (`null`/`undefined`)
  are modelled as `Option ℚ`.
* JS truthiness tests on numbers (`x && ...`) are translated as
  "defined and nonzero"; object-lookup misses yield `none`.
* The DOM select `landOwnershipSelect` (value `"1"` = Government/Barren,
  `"2"` = Private, read through `parseInt(..., 10)`) is modelled as an
  explicit integer argument `own`; the DOM environment is modelled
  explicitly for the purity claim.
* `L.polygon(ring).getBounds()` (Leaflet) interprets each point of `ring`
  as `[lat, lng]`.  The engine hands Leaflet raw GeoJSON points, which are
  `[lng, lat]`, so `getSouth/getNorth` are the min/max of the FIRST stored
  component and `getWest/getEast` of the SECOND stored component.
-/

/-- The `{best, worst}` record of a threshold-based parameter spec. -/
structure Thresholds where
  best : ℚ
  worst : ℚ
deriving DecidableEq

/-- One entry of `parametersConfig` (display-only `name`/`unit` fields are
omitted; `higherIsBetter` is `false` where the source omits it, which is
observationally the JS `undefined`-is-falsy behaviour). -/
structure ParamSpec where
  key : String
  weight : ℚ
  higherIsBetter : Bool
  thresholds : Option Thresholds
  suggestion : String
deriving DecidableEq

def slopeSpec : ParamSpec :=
  ⟨"slope", 1/5, false, some ⟨10, 20⟩,
   "Look for flatter terrain. High slopes increase construction costs and complexity."⟩

def ghiSpec : ParamSpec :=
  ⟨"ghi", 3/20, true, some ⟨4, 3⟩,
   "Site has lower than ideal solar irradiance. Consider areas with higher GHI for better energy yield."⟩

def temperatureSpec : ParamSpec :=
  ⟨"temperature", 7/100, false, some ⟨25, 40⟩,
   "High average temperatures can reduce panel efficiency. Cooler sites are preferable."⟩

def elevationSpec : ParamSpec :=
  ⟨"elevation", 3/100, false, none,
   "Site is outside the optimal elevation range (50-1500m), which can affect logistics and grid connection."⟩

def landCoverSpec : ParamSpec :=
  ⟨"landCover", 1/10, false, none,
   "Current land cover (e.g., forest, built-up area) may require significant clearing or preparation."⟩

def proximityToLinesSpec : ParamSpec :=
  ⟨"proximityToLines", 1/10, false, some ⟨1, 15⟩,
   "Site is far from existing transmission lines (60kV/30kV), which will significantly increase grid connection costs. Consider proximity to substations for better connection options."⟩

def proximityToRoadsSpec : ParamSpec :=
  ⟨"proximityToRoads", 1/20, false, some ⟨1, 10⟩,
   "Poor road access will complicate logistics, transport, and construction."⟩

def waterAvailabilitySpec : ParamSpec :=
  ⟨"waterAvailability", 1/20, false, some ⟨2, 15⟩,
   "Site is far from a water source, which is needed for panel cleaning and construction."⟩

def soilStabilitySpec : ParamSpec :=
  ⟨"soilStability", 1/20, true, some ⟨100, 20⟩,
   "Shallow soil depth may complicate foundation work for panel mountings."⟩

def shadingSpec : ParamSpec :=
  ⟨"shading", 1/20, true, some ⟨200, 100⟩,
   "Terrain analysis indicates potential shading from nearby hills, which will reduce energy output."⟩

def dustSpec : ParamSpec :=
  ⟨"dust", 3/100, false, some ⟨1/10, 1/2⟩,
   "High dust levels will require more frequent panel cleaning, increasing maintenance costs."⟩

def windSpeedSpec : ParamSpec :=
  ⟨"windSpeed", 1/50, false, some ⟨20, 90⟩,
   "Site experiences high wind speeds, requiring more robust and expensive mounting structures."⟩

def seismicRiskSpec : ParamSpec :=
  ⟨"seismicRisk", 1/50, false, some ⟨1/10, 2/5⟩,
   "High seismic risk requires specialized engineering for foundations and structures."⟩

def floodRiskSpec : ParamSpec :=
  ⟨"floodRisk", 1/50, false, some ⟨0, 5⟩,
   "A portion of the site is in a flood-prone area, posing a risk to equipment."⟩

def landOwnershipSpec : ParamSpec :=
  ⟨"landOwnership", 3/50, false, none,
   "Private land ownership can lead to longer acquisition times and higher costs compared to government land."⟩

/-- The fixed fifteen-entry decision-matrix configuration
(`parametersConfig`, part_000 lines 336-352). -/
def parametersConfig : List ParamSpec :=
  [slopeSpec, ghiSpec, temperatureSpec, elevationSpec, landCoverSpec,
   proximityToLinesSpec, proximityToRoadsSpec, waterAvailabilitySpec,
   soilStabilitySpec, shadingSpec, dustSpec, windSpeedSpec,
   seismicRiskSpec, floodRiskSpec, landOwnershipSpec]

/-- The `landUsabilityFactors` lookup object (part_000 lines 355-367);
a key miss returns `none` (JS `undefined`). -/
def landUsabilityFactors (code : ℚ) : Option ℚ :=
  if code = 10 then some (3/10)
  else if code = 20 then some (4/5)
  else if code = 30 then some 1
  else if code = 40 then some (3/5)
  else if code = 50 then some (1/10)
  else if code = 60 then some 1
  else if code = 70 then some 0
  else if code = 80 then some 0
  else if code = 90 then some (1/5)
  else if code = 95 then some (1/5)
  else if code = 100 then some (1/2)
  else none

/-- `RawParameterData`: the per-geometry raw-value record returned by the
remote analysis service.  Every field may be absent. -/
structure RawData where
  slope : Option ℚ
  ghi : Option ℚ
  temperature : Option ℚ
  elevation : Option ℚ
  landCover : Option ℚ
  proximityToLines : Option ℚ
  proximityToRoads : Option ℚ
  waterAvailability : Option ℚ
  soilStability : Option ℚ
  shading : Option ℚ
  windSpeed : Option ℚ
  dust : Option ℚ
  seismicRisk : Option ℚ
  floodRisk : Option ℚ
  landOwnership : Option ℚ
  ndvi : Option ℚ
deriving DecidableEq

/-- The dynamic key lookup `rawData[param.key]`. -/
def getRaw (rd : RawData) (key : String) : Option ℚ :=
  if key = "slope" then rd.slope
  else if key = "ghi" then rd.ghi
  else if key = "temperature" then rd.temperature
  else if key = "elevation" then rd.elevation
  else if key = "landCover" then rd.landCover
  else if key = "proximityToLines" then rd.proximityToLines
  else if key = "proximityToRoads" then rd.proximityToRoads
  else if key = "waterAvailability" then rd.waterAvailability
  else if key = "soilStability" then rd.soilStability
  else if key = "shading" then rd.shading
  else if key = "windSpeed" then rd.windSpeed
  else if key = "dust" then rd.dust
  else if key = "seismicRisk" then rd.seismicRisk
  else if key = "floodRisk" then rd.floodRisk
  else if key = "landOwnership" then rd.landOwnership
  else none

/-- JS `Math.round` (round half toward positive infinity). -/
def jsRound (x : ℚ) : ℚ := ((⌊x + 1/2⌋ : ℤ) : ℚ)

/-- `fixPrecisionIssues` (part_000 lines 1217-1226): categorical keys are
rounded to the nearest integer; `null`/`undefined` pass through. -/
def fixPrecisionIssues (key : String) (value : Option ℚ) : Option ℚ :=
  match value with
  | none => none
  | some v =>
    if key = "landCover" ∨ key = "landOwnership" then some (jsRound v) else some v

/-- `calculateScore` (part_000 lines 1321-1333): the threshold-based
per-parameter scorer.  A `null`/`undefined` value scores 0. -/
def calculateScore (value : Option ℚ) (t : Thresholds) (higherIsBetter : Bool) : ℚ :=
  match value with
  | none => 0
  | some v =>
    if higherIsBetter then
      if t.best ≤ v then 10
      else if v ≤ t.worst then 1
      else 1 + 9 * ((v - t.worst) / (t.best - t.worst))
    else
      if v ≤ t.best then 10
      else if t.worst ≤ v then 1
      else 1 + 9 * ((t.worst - v) / (t.worst - t.best))

/-- JS test `rawData.ndvi !== undefined && rawData.ndvi < c`. -/
def ndviDefinedLt (ndvi : Option ℚ) (c : ℚ) : Bool :=
  match ndvi with
  | some n => decide (n < c)
  | none => false

/-- JS test `rawData.ndvi && rawData.ndvi > c` (truthiness: defined and
nonzero). -/
def ndviTruthyGt (ndvi : Option ℚ) (c : ℚ) : Bool :=
  match ndvi with
  | some n => decide (n ≠ 0) && decide (c < n)
  | none => false

/-- JS expression `landUsabilityFactors[landCoverCode] || 0.5`: a missing
key, a missing code, or the factor `0` all fall back to `0.5`. -/
def usabilityOrDefault (code : Option ℚ) : ℚ :=
  match code with
  | none => 1/2
  | some c =>
    match landUsabilityFactors c with
    | none => 1/2
    | some f => if f = 0 then 1/2 else f

/-- `calculateEnhancedLandCoverScore` (part_000 lines 1276-1316): water
override, categorical base score, and vegetation-bias correction.  The only
field of `rawData` it reads is `ndvi`. -/
def calculateEnhancedLandCoverScore (landCoverCode : Option ℚ) (rd : RawData) : ℚ :=
  if ndviDefinedLt rd.ndvi (-(1/10)) then 0
  else
    let baseScore : ℚ :=
      if landCoverCode = some 50 then 1
      else if landCoverCode = some 80 ∨ landCoverCode = some 90 ∨ landCoverCode = some 95 then
        if ndviDefinedLt rd.ndvi (1/10) then 0 else 2
      else if landCoverCode = some 10 then 3
      else if landCoverCode = some 30 ∨ landCoverCode = some 40 ∨ landCoverCode = some 60 then 10
      else if landCoverCode = some 20 then 8
      else 5
    if ndviTruthyGt rd.ndvi (3/10) && decide (0 < baseScore) then
      let landUsabilityFactor := usabilityOrDefault landCoverCode
      if 3/5 ≤ landUsabilityFactor then
        min 10 (baseScore + (rd.ndvi.getD 0) * (1/5) * landUsabilityFactor)
      else baseScore
    else baseScore

/-- The per-parameter score branch of `calculateFinalScore` (part_000 lines
1234-1252): user-selection override for land ownership, hard elevation band,
land-cover corrector, threshold rule, and the neutral default 5.
An absent elevation falls into the `2` branch because in JS
`undefined >= 50` is false. -/
def scoreForParam (rd : RawData) (own : ℤ) (p : ParamSpec) : ℚ :=
  let rawValue := fixPrecisionIssues p.key (getRaw rd p.key)
  if p.key = "landOwnership" then
    if own = 1 then 10 else 5
  else if p.key = "elevation" then
    match rawValue with
    | some v => if 50 ≤ v ∧ v ≤ 1500 then 10 else 2
    | none => 2
  else if p.key = "landCover" then
    calculateEnhancedLandCoverScore rawValue rd
  else
    match p.thresholds with
    | some t => calculateScore rawValue t p.higherIsBetter
    | none => 5

/-- The `forEach` accumulation of `totalWeightedScore` in
`calculateFinalScore` (part_000 lines 1232-1259). -/
def totalWeightedScore (rd : RawData) (own : ℤ) : ℚ :=
  parametersConfig.foldl (fun acc p => acc + scoreForParam rd own p * p.weight) 0

/-- `calculateFinalScore` (part_000 lines 1231-1271): the weighted sum
clamped to `[0, 10]`. -/
def calculateFinalScore (rd : RawData) (own : ℤ) : ℚ :=
  min 10 (max 0 (totalWeightedScore rd own))

/-- Claim C1: for a threshold-based spec and a present numeric value, the
scorer returns 10 / 1 / the stated linear interpolation, in both
orientations of `higherIsBetter` (the thresholds being oriented the way the
orientation flag says: `worst < best` when higher is better, `best < worst`
otherwise). -/
theorem C1_calculateScore_threshold_rule (best worst v : ℚ) :
    (worst < best →
      (best ≤ v → calculateScore (some v) ⟨best, worst⟩ true = 10) ∧
      (v ≤ worst → calculateScore (some v) ⟨best, worst⟩ true = 1) ∧
      (worst < v → v < best →
        calculateScore (some v) ⟨best, worst⟩ true =
          1 + 9 * ((v - worst) / (best - worst)))) ∧
    (best < worst →
      (v ≤ best → calculateScore (some v) ⟨best, worst⟩ false = 10) ∧
      (worst ≤ v → calculateScore (some v) ⟨best, worst⟩ false = 1) ∧
      (best < v → v < worst →
        calculateScore (some v) ⟨best, worst⟩ false =
          1 + 9 * ((worst - v) / (worst - best)))) := by
  constructor <;> intro horder <;>
    refine ⟨fun h1 => ?_, fun h2 => ?_, fun h3 h4 => ?_⟩ <;>
    simp only [calculateScore] <;> split_ifs <;>
    first | rfl | linarith | simp_all

/-- Witness for C1 at the slope spec thresholds (`best = 10`, `worst = 20`,
`higherIsBetter = false`) and the interior value 15. -/
theorem C1_calculateScore_threshold_rule_witness :
    (10 : ℚ) < 20 ∧ calculateScore (some 15) ⟨10, 20⟩ false = 11/2 := by
  refine ⟨by norm_num, ?_⟩
  have h :=
    ((C1_calculateScore_threshold_rule 10 20 15).2 (by norm_num)).2.2
      (by norm_num) (by norm_num)
  rw [h]
  norm_num

/-- The JS fallback `landUsabilityFactors[code] || 0.5` and the table value
agree on the bonus test `factor >= 0.6`, and coincide whenever the test
passes (the `|| 0.5` fallback only replaces `undefined` or `0`, both of
which fail the test anyway). -/
theorem usabilityOrDefault_vs_table (c : ℚ) :
    ((3:ℚ)/5 ≤ usabilityOrDefault (some c) ↔
      (3:ℚ)/5 ≤ (landUsabilityFactors c).getD 0) ∧
    ((3:ℚ)/5 ≤ (landUsabilityFactors c).getD 0 →
      usabilityOrDefault (some c) = (landUsabilityFactors c).getD 0) := by
  by_cases h1 : c = 10
  · subst h1; norm_num [usabilityOrDefault, landUsabilityFactors, Option.getD]
  by_cases h2 : c = 20
  · subst h2; norm_num [usabilityOrDefault, landUsabilityFactors, Option.getD]
  by_cases h3 : c = 30
  · subst h3; norm_num [usabilityOrDefault, landUsabilityFactors, Option.getD]
  by_cases h4 : c = 40
  · subst h4; norm_num [usabilityOrDefault, landUsabilityFactors, Option.getD]
  by_cases h5 : c = 50
  · subst h5; norm_num [usabilityOrDefault, landUsabilityFactors, Option.getD]
  by_cases h6 : c = 60
  · subst h6; norm_num [usabilityOrDefault, landUsabilityFactors, Option.getD]
  by_cases h7 : c = 70
  · subst h7; norm_num [usabilityOrDefault, landUsabilityFactors, Option.getD]
  by_cases h8 : c = 80
  · subst h8; norm_num [usabilityOrDefault, landUsabilityFactors, Option.getD]
  by_cases h9 : c = 90
  · subst h9; norm_num [usabilityOrDefault, landUsabilityFactors, Option.getD]
  by_cases h10 : c = 95
  · subst h10; norm_num [usabilityOrDefault, landUsabilityFactors, Option.getD]
  by_cases h11 : c = 100
  · subst h11; norm_num [usabilityOrDefault, landUsabilityFactors, Option.getD]
  have hnone : landUsabilityFactors c = none := by
    simp [landUsabilityFactors, h1, h2, h3, h4, h5, h6, h7, h8, h9, h10, h11]
  simp only [usabilityOrDefault, hnone, Option.getD_none]
  norm_num

set_option maxHeartbeats 1600000 in
/-- Claim C2: the land-cover scorer returns 0 on the NDVI water override,
otherwise scores the categorical class by the fixed table, and adds the
vegetation adjustment `ndvi * 0.2 * landUsabilityFactor` (clamped at 10)
exactly when `ndvi > 0.3`, the base score is positive, and the class has a
usability factor of at least `0.6` in the table. -/
theorem C2_landcover_rule (code n : ℚ) (rd : RawData) (hndvi : rd.ndvi = some n) :
    calculateEnhancedLandCoverScore (some code) rd =
      if n < -(1/10) then 0
      else
        let base : ℚ :=
          if code = 50 then 1
          else if code = 80 ∨ code = 90 ∨ code = 95 then
            if n < 1/10 then 0 else 2
          else if code = 10 then 3
          else if code = 30 ∨ code = 40 ∨ code = 60 then 10
          else if code = 20 then 8
          else 5
        if 3/10 < n ∧ 0 < base ∧ 3/5 ≤ (landUsabilityFactors code).getD 0 then
          min 10 (base + n * (1/5) * ((landUsabilityFactors code).getD 0))
        else base := by
  have hU1 := (usabilityOrDefault_vs_table code).1
  have hU2 := (usabilityOrDefault_vs_table code).2
  have hiff : (n ≠ 0 ∧ 3/10 < n) ↔ (3/10 < n) := by
    constructor
    · exact fun h => h.2
    · intro h
      refine ⟨fun h0 => ?_, h⟩
      rw [h0] at h
      norm_num at h
  simp only [calculateEnhancedLandCoverScore, hndvi, ndviDefinedLt, ndviTruthyGt,
    Option.getD_some, Option.some.injEq, Bool.and_eq_true, decide_eq_true_eq, hiff, hU1]
  split_ifs <;>
    first
      | rfl
      | (exfalso; tauto)
      | (rw [hU2 (by tauto)])

/-- A raw-data record for a vegetated grassland site: NDVI 0.4, all other
raw values absent. -/
def rdGrass : RawData :=
  ⟨none, none, none, none, none, none, none, none,
   none, none, none, none, none, none, none, some (2/5)⟩

/-- Witness for C2 at grassland (code 30) with NDVI 0.4: the vegetation
bonus applies (usability 1.0) and the score clamps at 10. -/
theorem C2_landcover_rule_witness :
    rdGrass.ndvi = some (2/5) ∧
    calculateEnhancedLandCoverScore (some 30) rdGrass = 10 := by
  refine ⟨rfl, ?_⟩
  rw [C2_landcover_rule 30 (2/5) rdGrass rfl]
  norm_num [landUsabilityFactors, Option.getD]

/-- `fixPrecisionIssues` is the identity on non-categorical keys. -/
theorem fixPrecisionIssues_other (k : String)
    (h : ¬(k = "landCover" ∨ k = "landOwnership")) (v : Option ℚ) :
    fixPrecisionIssues k v = v := by
  cases v <;> simp [fixPrecisionIssues, h]

/-- On the `landCover` key, `fixPrecisionIssues` rounds the value. -/
theorem fixPrecisionIssues_landCover (v : Option ℚ) :
    fixPrecisionIssues "landCover" v = v.map jsRound := by
  cases v <;> simp [fixPrecisionIssues]

theorem scoreForParam_slopeSpec (rd : RawData) (own : ℤ) :
    scoreForParam rd own slopeSpec = calculateScore rd.slope ⟨10, 20⟩ false := by
  simp [scoreForParam, slopeSpec, getRaw, fixPrecisionIssues_other "slope" (by simp)]

theorem scoreForParam_ghiSpec (rd : RawData) (own : ℤ) :
    scoreForParam rd own ghiSpec = calculateScore rd.ghi ⟨4, 3⟩ true := by
  simp [scoreForParam, ghiSpec, getRaw, fixPrecisionIssues_other "ghi" (by simp)]

theorem scoreForParam_temperatureSpec (rd : RawData) (own : ℤ) :
    scoreForParam rd own temperatureSpec = calculateScore rd.temperature ⟨25, 40⟩ false := by
  simp [scoreForParam, temperatureSpec, getRaw,
    fixPrecisionIssues_other "temperature" (by simp)]

theorem scoreForParam_elevationSpec (rd : RawData) (own : ℤ) :
    scoreForParam rd own elevationSpec =
      (match rd.elevation with
       | some v => if 50 ≤ v ∧ v ≤ 1500 then (10:ℚ) else 2
       | none => 2) := by
  simp [scoreForParam, elevationSpec, getRaw,
    fixPrecisionIssues_other "elevation" (by simp)]

theorem scoreForParam_landCoverSpec (rd : RawData) (own : ℤ) :
    scoreForParam rd own landCoverSpec =
      calculateEnhancedLandCoverScore (rd.landCover.map jsRound) rd := by
  simp [scoreForParam, landCoverSpec, getRaw, fixPrecisionIssues_landCover]

theorem scoreForParam_proximityToLinesSpec (rd : RawData) (own : ℤ) :
    scoreForParam rd own proximityToLinesSpec =
      calculateScore rd.proximityToLines ⟨1, 15⟩ false := by
  simp [scoreForParam, proximityToLinesSpec, getRaw,
    fixPrecisionIssues_other "proximityToLines" (by simp)]

theorem scoreForParam_proximityToRoadsSpec (rd : RawData) (own : ℤ) :
    scoreForParam rd own proximityToRoadsSpec =
      calculateScore rd.proximityToRoads ⟨1, 10⟩ false := by
  simp [scoreForParam, proximityToRoadsSpec, getRaw,
    fixPrecisionIssues_other "proximityToRoads" (by simp)]

theorem scoreForParam_waterAvailabilitySpec (rd : RawData) (own : ℤ) :
    scoreForParam rd own waterAvailabilitySpec =
      calculateScore rd.waterAvailability ⟨2, 15⟩ false := by
  simp [scoreForParam, waterAvailabilitySpec, getRaw,
    fixPrecisionIssues_other "waterAvailability" (by simp)]

theorem scoreForParam_soilStabilitySpec (rd : RawData) (own : ℤ) :
    scoreForParam rd own soilStabilitySpec =
      calculateScore rd.soilStability ⟨100, 20⟩ true := by
  simp [scoreForParam, soilStabilitySpec, getRaw,
    fixPrecisionIssues_other "soilStability" (by simp)]

theorem scoreForParam_shadingSpec (rd : RawData) (own : ℤ) :
    scoreForParam rd own shadingSpec = calculateScore rd.shading ⟨200, 100⟩ true := by
  simp [scoreForParam, shadingSpec, getRaw, fixPrecisionIssues_other "shading" (by simp)]

theorem scoreForParam_dustSpec (rd : RawData) (own : ℤ) :
    scoreForParam rd own dustSpec = calculateScore rd.dust ⟨1/10, 1/2⟩ false := by
  simp [scoreForParam, dustSpec, getRaw, fixPrecisionIssues_other "dust" (by simp)]

theorem scoreForParam_windSpeedSpec (rd : RawData) (own : ℤ) :
    scoreForParam rd own windSpeedSpec = calculateScore rd.windSpeed ⟨20, 90⟩ false := by
  simp [scoreForParam, windSpeedSpec, getRaw,
    fixPrecisionIssues_other "windSpeed" (by simp)]

theorem scoreForParam_seismicRiskSpec (rd : RawData) (own : ℤ) :
    scoreForParam rd own seismicRiskSpec =
      calculateScore rd.seismicRisk ⟨1/10, 2/5⟩ false := by
  simp [scoreForParam, seismicRiskSpec, getRaw,
    fixPrecisionIssues_other "seismicRisk" (by simp)]

theorem scoreForParam_floodRiskSpec (rd : RawData) (own : ℤ) :
    scoreForParam rd own floodRiskSpec = calculateScore rd.floodRisk ⟨0, 5⟩ false := by
  simp [scoreForParam, floodRiskSpec, getRaw,
    fixPrecisionIssues_other "floodRisk" (by simp)]

theorem scoreForParam_landOwnershipSpec (rd : RawData) (own : ℤ) :
    scoreForParam rd own landOwnershipSpec = if own = 1 then 10 else 5 := by
  simp [scoreForParam, landOwnershipSpec]

/-- Claim C3: the aggregator's final score is the clamp to `[0, 10]` of the
weighted sum over the fifteen parameter specs, each scored by the threshold
rule, the land-cover corrector, the elevation band, or the ownership rule,
with the configured weights. -/
theorem C3_finalScore_formula (rd : RawData) (own : ℤ) :
    calculateFinalScore rd own =
      min 10 (max 0
        (calculateScore rd.slope ⟨10, 20⟩ false * (1/5)
         + calculateScore rd.ghi ⟨4, 3⟩ true * (3/20)
         + calculateScore rd.temperature ⟨25, 40⟩ false * (7/100)
         + (match rd.elevation with
            | some v => if 50 ≤ v ∧ v ≤ 1500 then (10:ℚ) else 2
            | none => 2) * (3/100)
         + calculateEnhancedLandCoverScore (rd.landCover.map jsRound) rd * (1/10)
         + calculateScore rd.proximityToLines ⟨1, 15⟩ false * (1/10)
         + calculateScore rd.proximityToRoads ⟨1, 10⟩ false * (1/20)
         + calculateScore rd.waterAvailability ⟨2, 15⟩ false * (1/20)
         + calculateScore rd.soilStability ⟨100, 20⟩ true * (1/20)
         + calculateScore rd.shading ⟨200, 100⟩ true * (1/20)
         + calculateScore rd.dust ⟨1/10, 1/2⟩ false * (3/100)
         + calculateScore rd.windSpeed ⟨20, 90⟩ false * (1/50)
         + calculateScore rd.seismicRisk ⟨1/10, 2/5⟩ false * (1/50)
         + calculateScore rd.floodRisk ⟨0, 5⟩ false * (1/50)
         + (if own = 1 then (10:ℚ) else 5) * (3/50))) := by
  rw [calculateFinalScore, totalWeightedScore]
  simp only [parametersConfig, List.foldl_cons, List.foldl_nil,
    scoreForParam_slopeSpec, scoreForParam_ghiSpec, scoreForParam_temperatureSpec,
    scoreForParam_elevationSpec, scoreForParam_landCoverSpec,
    scoreForParam_proximityToLinesSpec, scoreForParam_proximityToRoadsSpec,
    scoreForParam_waterAvailabilitySpec, scoreForParam_soilStabilitySpec,
    scoreForParam_shadingSpec, scoreForParam_dustSpec, scoreForParam_windSpeedSpec,
    scoreForParam_seismicRiskSpec, scoreForParam_floodRiskSpec,
    scoreForParam_landOwnershipSpec, zero_add]
  simp only [slopeSpec, ghiSpec, temperatureSpec, elevationSpec, landCoverSpec,
    proximityToLinesSpec, proximityToRoadsSpec, waterAvailabilitySpec,
    soilStabilitySpec, shadingSpec, dustSpec, windSpeedSpec, seismicRiskSpec,
    floodRiskSpec, landOwnershipSpec]

/-- The interim binary decision text written by `analyzeGeometry`
(part_000 lines 1157-1163, threshold 6). -/
def analyzeGeometryInterimDecision (finalScore : ℚ) : String :=
  if 6 ≤ finalScore then "Highly Suitable" else "Not Suitable"

/-- The ternary decision of `displayResults` (part_000 lines 1436-1448). -/
def displayResultsDecision (finalScore : ℚ) : String :=
  if 7 ≤ finalScore then "Yes"
  else if 5 ≤ finalScore then "Review"
  else "No"

/-- The decision element's successive writes during the upload flow, in
program order: `analyzeGeometry` first writes its interim binary text, then
`displayResults` overwrites it with the ternary decision. -/
def decisionElementWrites (finalScore : ℚ) : List String :=
  [analyzeGeometryInterimDecision finalScore, displayResultsDecision finalScore]

/-- The decision finally reported for an analyzed geometry: the last write
to the decision element. -/
def reportedDecision (finalScore : ℚ) : String :=
  (decisionElementWrites finalScore).getLastD ""

/-- Claim C4: the reported decision follows the bands
`finalScore >= 7 -> Yes`, `5 <= finalScore < 7 -> Review`,
`finalScore < 5 -> No` (the interim threshold-6 write of `analyzeGeometry`
is overwritten by `displayResults` before the result is reported). -/
theorem C4_decision_bands (s : ℚ) :
    (7 ≤ s → reportedDecision s = "Yes") ∧
    (5 ≤ s ∧ s < 7 → reportedDecision s = "Review") ∧
    (s < 5 → reportedDecision s = "No") := by
  have hlast : reportedDecision s = displayResultsDecision s := rfl
  refine ⟨fun h => ?_, fun h => ?_, fun h => ?_⟩ <;>
    rw [hlast] <;> simp only [displayResultsDecision] <;> split_ifs <;>
    first | rfl | linarith [h.1, h.2] | linarith

/-- Witness for C4at the score 8 (band "Yes"). -/
theorem C4_decision_bands_witness :
    (7 : ℚ) ≤ 8 ∧ reportedDecision 8 = "Yes" :=
  ⟨by norm_num, (C4_decision_bands 8).1 (by norm_num)⟩

/-- A raw-data record with every value absent. -/
def rdNone : RawData :=
  ⟨none, none, none, none, none, none, none, none,
   none, none, none, none, none, none, none, none⟩

/-- Counterexample to C5: with every raw value missing, the elevation
parameter scores 2 (the outside-band score, because in JS
`undefined >= 50` is false) and the land-cover parameter scores 5 (the
unrecognized-class base score), not 0. -/
theorem C5_missing_special_not_zero :
    elevationSpec ∈ parametersConfig ∧
    landCoverSpec ∈ parametersConfig ∧
    getRaw rdNone "elevation" = none ∧
    getRaw rdNone "landCover" = none ∧
    scoreForParam rdNone 1 elevationSpec = 2 ∧
    scoreForParam rdNone 1 landCoverSpec = 5 ∧
    (2 : ℚ) ≠ 0 ∧ (5 : ℚ) ≠ 0 := by
  refine ⟨by simp [parametersConfig], by simp [parametersConfig], rfl, rfl, ?_, ?_,
    by norm_num, by norm_num⟩
  · rw [scoreForParam_elevationSpec]
    rfl
  · rw [scoreForParam_landCoverSpec]
    show calculateEnhancedLandCoverScore none rdNone = 5
    simp [calculateEnhancedLandCoverScore, ndviDefinedLt, ndviTruthyGt, rdNone]

/-- Claim C5 amended: a missing raw value scores 0 exactly for the
threshold-based specs; the special-cased parameters behave differently —
a missing elevation scores 2 and a missing land cover is scored by the
corrector as an unrecognized class (5 whenever the NDVI water override does
not fire), while land ownership ignores `rawData` entirely. -/
theorem C5_amended_missing_value_scores (rd : RawData) (own : ℤ) :
    (∀ p ∈ parametersConfig, (∃ t, p.thresholds = some t) →
      getRaw rd p.key = none → scoreForParam rd own p = 0) ∧
    (rd.elevation = none → scoreForParam rd own elevationSpec = 2) ∧
    (rd.landCover = none → ndviDefinedLt rd.ndvi (-(1/10)) = false →
      scoreForParam rd own landCoverSpec = 5) := by
  refine ⟨?_, fun h => ?_, fun h hnd => ?_⟩
  · intro p hp ht hraw
    simp only [parametersConfig] at hp
    fin_cases hp <;>
      first
        | (exfalso; rcases ht with ⟨t, ht2⟩
           simp [elevationSpec, landCoverSpec, landOwnershipSpec] at ht2)
        | (simp only [scoreForParam_slopeSpec, scoreForParam_ghiSpec,
             scoreForParam_temperatureSpec, scoreForParam_proximityToLinesSpec,
             scoreForParam_proximityToRoadsSpec, scoreForParam_waterAvailabilitySpec,
             scoreForParam_soilStabilitySpec, scoreForParam_shadingSpec,
             scoreForParam_dustSpec, scoreForParam_windSpeedSpec,
             scoreForParam_seismicRiskSpec, scoreForParam_floodRiskSpec]
           simp [getRaw, slopeSpec, ghiSpec, temperatureSpec, proximityToLinesSpec,
             proximityToRoadsSpec, waterAvailabilitySpec, soilStabilitySpec,
             shadingSpec, dustSpec, windSpeedSpec, seismicRiskSpec,
             floodRiskSpec] at hraw
           rw [hraw]
           rfl)
  · rw [scoreForParam_elevationSpec, h]
  · rw [scoreForParam_landCoverSpec, h]
    show calculateEnhancedLandCoverScore none rd = 5
    have hnd2 : ndviDefinedLt rd.ndvi (-10⁻¹) = false := by
      rw [show ((-10⁻¹ : ℚ)) = -(1/10) by norm_num]
      exact hnd
    simp [calculateEnhancedLandCoverScore, usabilityOrDefault, hnd, hnd2]
    intro hgt hle
    norm_num at hle

/-- Witness for the amended C5 at the slope spec with every value missing. -/
theorem C5_amended_missing_value_scores_witness :
    slopeSpec ∈ parametersConfig ∧ scoreForParam rdNone 1 slopeSpec = 0 := by
  refine ⟨by simp [parametersConfig], ?_⟩
  exact (C5_amended_missing_value_scores rdNone 1).1 slopeSpec
    (by simp [parametersConfig]) ⟨⟨10, 20⟩, rfl⟩ rfl

/-- The per-parameter score branch of `displayResults` (part_000 lines
1378-1396): a textual duplicate of the branch inside
`calculateFinalScore`, re-executed when the decision matrix is rendered. -/
def displayScoreForParam (rd : RawData) (own : ℤ) (p : ParamSpec) : ℚ :=
  let rawValue := fixPrecisionIssues p.key (getRaw rd p.key)
  if p.key = "landOwnership" then
    if own = 1 then 10 else 5
  else if p.key = "elevation" then
    match rawValue with
    | some v => if 50 ≤ v ∧ v ≤ 1500 then 10 else 2
    | none => 2
  else if p.key = "landCover" then
    calculateEnhancedLandCoverScore rawValue rd
  else
    match p.thresholds with
    | some t => calculateScore rawValue t p.higherIsBetter
    | none => 5

/-- The weighted scores shown in the decision-matrix rows, in declaration
order (part_000 line 1398). -/
def displayWeightedScores (rd : RawData) (own : ℤ) : List ℚ :=
  parametersConfig.map (fun p => displayScoreForParam rd own p * p.weight)

/-- The suggestion list collected by `displayResults` (part_000 lines
1400-1403): the suggestion text of every parameter scoring below 5 with a
truthy (non-empty) suggestion, in declaration order. -/
def displaySuggestions (rd : RawData) (own : ℤ) : List String :=
  (parametersConfig.filter (fun p =>
    decide (displayScoreForParam rd own p < 5) && decide (p.suggestion ≠ ""))).map
    (fun p => p.suggestion)

/-- The headline score shown by `displayResults` (part_000 lines 1375 and
1431): it recomputes `calculateFinalScore` on the stored raw data. -/
def displayedFinalScore (rd : RawData) (own : ℤ) : ℚ := calculateFinalScore rd own

/-- Claim C10: the two scoring paths agree — the scores recomputed by
`displayResults` equal the aggregator's parameter for parameter, the sum of
the displayed weighted scores is the aggregator's pre-clamp total (so the
displayed final score is its clamp), and the suggestion list holds exactly
the suggestion texts of the parameters scoring below 5, in declaration
order. -/
theorem C10_display_consistency (rd : RawData) (own : ℤ) :
    (∀ p ∈ parametersConfig, displayScoreForParam rd own p = scoreForParam rd own p) ∧
    (displayWeightedScores rd own).sum = totalWeightedScore rd own ∧
    displayedFinalScore rd own = min 10 (max 0 (totalWeightedScore rd own)) ∧
    displaySuggestions rd own =
      (parametersConfig.filter (fun p => decide (scoreForParam rd own p < 5))).map
        (fun p => p.suggestion) := by
  have hdup : ∀ p, displayScoreForParam rd own p = scoreForParam rd own p :=
    fun p => rfl
  refine ⟨fun p hp => hdup p, ?_, rfl, ?_⟩
  · rw [totalWeightedScore, displayWeightedScores]
    simp only [parametersConfig, List.map_cons, List.map_nil, List.sum_cons,
      List.sum_nil, List.foldl_cons, List.foldl_nil, zero_add, hdup]
    ring
  · rw [displaySuggestions]
    have hfil : ∀ p ∈ parametersConfig,
        (decide (displayScoreForParam rd own p < 5) && decide (p.suggestion ≠ "")) =
          decide (scoreForParam rd own p < 5) := by
      intro p hp
      have hs : decide (p.suggestion ≠ "") = true := by
        simp only [parametersConfig] at hp
        fin_cases hp <;>
          simp [slopeSpec, ghiSpec, temperatureSpec, elevationSpec, landCoverSpec,
            proximityToLinesSpec, proximityToRoadsSpec, waterAvailabilitySpec,
            soilStabilitySpec, shadingSpec, dustSpec, windSpeedSpec,
            seismicRiskSpec, floodRiskSpec, landOwnershipSpec]
      rw [hdup p, hs, Bool.and_true]
    rw [List.filter_congr hfil]

/-- Witness for C10 at the slope spec with the all-missing record. -/
theorem C10_display_consistency_witness :
    slopeSpec ∈ parametersConfig ∧
    displayScoreForParam rdNone 1 slopeSpec = scoreForParam rdNone 1 slopeSpec := by
  refine ⟨by simp [parametersConfig], ?_⟩
  exact (C10_display_consistency rdNone 1).1 slopeSpec (by simp [parametersConfig])

/-- The module-scoped browser environment the analyzer executes in; besides
the land-ownership select, the module keeps mutable globals (`map`,
`currentKmlData`, `areaAnalysisResults`, `fullAreaResults`) that
`calculateFinalScore` never reads. -/
structure DomEnv where
  landOwnershipSelectValue : ℤ
  currentKmlDataLoaded : Bool
  areaAnalysisResultsCount : ℕ
  fullAreaResultsCount : ℕ
  mapInitialized : Bool
deriving DecidableEq

/-- One browser call of `calculateFinalScore`: of the whole environment it
reads only `landOwnershipSelect.value`; it performs no mutation (its only
side effect is `console.log`), so the environment is returned unchanged. -/
def calculateFinalScoreCall (env : DomEnv) (rd : RawData) : ℚ × DomEnv :=
  (calculateFinalScore rd env.landOwnershipSelectValue, env)

/-- Claim C9: the aggregator is deterministic and stateless — two calls
with identical raw data and identical land-ownership selection return
identical final scores regardless of every other piece of ambient state,
and a call leaves the environment unchanged (no state carries over to a
later call). -/
theorem C9_aggregator_pure (env1 env2 : DomEnv) (rd1 rd2 : RawData)
    (hrd : rd1 = rd2)
    (hsel : env1.landOwnershipSelectValue = env2.landOwnershipSelectValue) :
    (calculateFinalScoreCall env1 rd1).1 = (calculateFinalScoreCall env2 rd2).1 ∧
    (calculateFinalScoreCall env1 rd1).2 = env1 := by
  subst hrd
  exact ⟨by simp [calculateFinalScoreCall, hsel], rfl⟩

/-- Witness for C9: two environments agreeing only on the select value. -/
theorem C9_aggregator_pure_witness :
    (calculateFinalScoreCall ⟨1, true, 3, 3, true⟩ rdNone).1 =
      (calculateFinalScoreCall ⟨1, false, 0, 7, false⟩ rdNone).1 :=
  (C9_aggregator_pure ⟨1, true, 3, 3, true⟩ ⟨1, false, 0, 7, false⟩
    rdNone rdNone rfl rfl).1

/-- The per-geometry analysis result kept by the orchestrator (the
`subAreas` field, always `[geometry]` here, is omitted). -/
structure AnalysisResult where
  rawData : RawData
  finalScore : ℚ
deriving DecidableEq

/-- `analyzeGeometry` (part_000 lines 1127-1179): one remote fetch followed
by scoring; a fetch failure is rethrown with an `Analysis failed:`
message. -/
def analyzeGeometryModel (own : ℤ) (fetched : Except String RawData) :
    Except String AnalysisResult :=
  match fetched with
  | Except.error e => Except.error ("Analysis failed: " ++ e)
  | Except.ok rd => Except.ok ⟨rd, calculateFinalScore rd own⟩

/-- The analysis loop of `handleKmlUpload` (part_000 lines 1002-1012): the
geometries are analyzed sequentially inside one `try` block whose `catch`
(lines 1116-1119) reports a single error, so the first failure aborts the
whole batch and no geometry's result is reported. -/
def handleKmlUploadAnalysis (own : ℤ) :
    List (Except String RawData) → Except String (List AnalysisResult)
  | [] => Except.ok []
  | f :: fs =>
    match analyzeGeometryModel own f with
    | Except.error e => Except.error e
    | Except.ok r =>
      match handleKmlUploadAnalysis own fs with
      | Except.error e => Except.error e
      | Except.ok rs => Except.ok (r :: rs)

/-- `analyzeGeometriesBatch` (part_000 lines 1183-1212, defined but never
called): per-item mapping in which an item-level error record is passed
through and every other item is scored. -/
def analyzeGeometriesBatch (own : ℤ) (results : List (Except String RawData)) :
    List (Except String AnalysisResult) :=
  results.map (fun item =>
    match item with
    | Except.error e => Except.error e
    | Except.ok rd => Except.ok ⟨rd, calculateFinalScore rd own⟩)

/-- Counterexample to C8: in a two-geometry upload whose second fetch
fails, `handleKmlUpload` reports only the error — the first geometry's
already-computed result is not reported, contradicting the claim that
other geometries' results survive a failure. -/
theorem C8_upload_abort_counterexample :
    handleKmlUploadAnalysis 1 [Except.ok rdNone, Except.error "service unavailable"] =
      Except.error "Analysis failed: service unavailable" := rfl

/-- Claim C8 amended: per-geometry failure isolation holds only in the
(unused) `analyzeGeometriesBatch`, where each output item depends on its
own input item alone; in the upload driver `handleKmlUpload`, a failure on
any geometry (after any run of successful fetches) aborts the whole batch
with a single error and no result list. -/
theorem C8_amended_batch_isolation :
    (∀ (own : ℤ) (items : List (Except String RawData)) (i : ℕ),
      (analyzeGeometriesBatch own items)[i]? =
        items[i]?.map (fun item =>
          match item with
          | Except.error e => Except.error e
          | Except.ok rd => Except.ok ⟨rd, calculateFinalScore rd own⟩)) ∧
    (∀ (own : ℤ) (pre post : List (Except String RawData)) (e : String),
      (∀ f ∈ pre, ∃ rd, f = Except.ok rd) →
      handleKmlUploadAnalysis own (pre ++ Except.error e :: post) =
        Except.error ("Analysis failed: " ++ e)) := by
  constructor
  · intro own items i
    simp [analyzeGeometriesBatch, List.getElem?_map]
  · intro own pre post e hpre
    induction pre with
    | nil => rfl
    | cons f fs ih =>
      rcases hpre f (List.mem_cons_self f fs) with ⟨rd, rfl⟩
      have ih2 := ih (fun g hg => hpre g (List.mem_cons_of_mem _ hg))
      simp only [List.cons_append, handleKmlUploadAnalysis, analyzeGeometryModel,
        List.append_eq]
      rw [ih2]

/-- Witness for the amended C8: isolation of item 1 in
`analyzeGeometriesBatch`, and the whole-batch abort of `handleKmlUpload`
on a batch whose second fetch fails. -/
theorem C8_amended_batch_isolation_witness :
    (analyzeGeometriesBatch 1 [Except.error "x", Except.ok rdNone])[1]? =
      some (Except.ok ⟨rdNone, calculateFinalScore rdNone 1⟩) ∧
    handleKmlUploadAnalysis 1 [Except.ok rdNone, Except.error "x"] =
      Except.error ("Analysis failed: " ++ "x") := by
  constructor
  · rw [C8_amended_batch_isolation.1 1 [Except.error "x", Except.ok rdNone] 1]
    rfl
  · exact C8_amended_batch_isolation.2 1 [Except.ok rdNone] [] "x"
      (by
        intro f hf
        simp only [List.mem_singleton] at hf
        exact ⟨rdNone, hf⟩)

/-- Leaflet bounds of a ring of raw coordinate pairs.  JS builds these via
`L.polygon(ring).getBounds()`; Leaflet reads each pair as `[lat, lng]`,
and the engine hands it GeoJSON `[lng, lat]` pairs (unlike the rendering
code at part_000 lines 573-575 and 662-664, which swaps to `[lat, lng]`
first), so south/north are the extremes of the FIRST stored component and
west/east of the SECOND. -/
structure LatLngBounds where
  south : ℚ
  north : ℚ
  west : ℚ
  east : ℚ
deriving DecidableEq

/-- Minimum of a list of rationals (0 for the empty list, which no caller
reaches with a valid ring). -/
def listMin : List ℚ → ℚ
  | [] => 0
  | x :: xs => xs.foldl (fun a b => if a ≤ b then a else b) x

/-- Maximum of a list of rationals (0 for the empty list). -/
def listMax : List ℚ → ℚ
  | [] => 0
  | x :: xs => xs.foldl (fun a b => if b ≤ a then a else b) x

/-- `Math.abs` on rationals. -/
def jsAbs (x : ℚ) : ℚ := if x < 0 then -x else x

/-- `L.polygon(ring).getBounds()` on the raw coordinate pairs. -/
def ringBoundsLeaflet (ring : List (ℚ × ℚ)) : LatLngBounds :=
  { south := listMin (ring.map Prod.fst)
    north := listMax (ring.map Prod.fst)
    west := listMin (ring.map Prod.snd)
    east := listMax (ring.map Prod.snd) }

/-- Consecutive cyclic pairs `(pts[i], pts[(i+1) % n])` of a list, matching
the index arithmetic of the shoelace loop. -/
def cyclePairs {α : Type} : List α → List (α × α)
  | [] => []
  | x :: xs => (x :: xs).zip (xs ++ [x])

/-- `calculatePolygonArea` (part_000 lines 476-487): unsigned shoelace sum
over the ring excluding its duplicated closing point. -/
def calculatePolygonArea (coordinates : List (ℚ × ℚ)) : ℚ :=
  jsAbs ((cyclePairs coordinates.dropLast).foldl
    (fun acc ab => acc + (ab.1.1 * ab.2.2 - ab.2.1 * ab.1.2)) 0) / 2

/-- `polygonIntersects` (part_000 lines 492-501): the axis-aligned
bounding-box overlap test between the Leaflet bounds of the two rings. -/
def polygonIntersects (poly1 poly2 : List (ℚ × ℚ)) : Bool :=
  let bounds1 := ringBoundsLeaflet poly1
  let bounds2 := ringBoundsLeaflet poly2
  !(decide (bounds1.east < bounds2.west) || decide (bounds1.west > bounds2.east) ||
    decide (bounds1.north < bounds2.south) || decide (bounds1.south > bounds2.north))

/-- `Math.ceil(Math.sqrt(q))` for a nonnegative rational: the least natural
number whose square is at least `q` (searched below the bound
`q.num.toNat + 1`, which always contains such a number). -/
def ceilSqrt (q : ℚ) : ℕ :=
  ((List.range (q.num.toNat + 1)).filter
    (fun (n : ℕ) => decide (q ≤ (n : ℚ) * (n : ℚ)))).headD q.num.toNat

/-- `dividePolygonIntoSubAreas` (part_000 lines 431-471): return the
polygon unchanged when its area is at most `maxArea`; otherwise build a
`gridSize × gridSize` grid from the Leaflet bounds (axes swapped, see
`ringBoundsLeaflet`), keep the cells passing `polygonIntersects`, and fall
back to `[polygon]` when no cell survives. -/
def dividePolygonIntoSubAreas (polygon : List (ℚ × ℚ)) (maxArea : ℚ) :
    List (List (ℚ × ℚ)) :=
  let bounds := ringBoundsLeaflet polygon
  let area := calculatePolygonArea polygon
  if area ≤ maxArea then [polygon]
  else
    let gridSize := ceilSqrt (area / maxArea)
    let latStep := (bounds.north - bounds.south) / gridSize
    let lngStep := (bounds.east - bounds.west) / gridSize
    let subAreas := (List.range gridSize).flatMap (fun i =>
      (List.range gridSize).filterMap (fun j =>
        let south := bounds.south + (i : ℚ) * latStep
        let north := bounds.south + ((i : ℚ) + 1) * latStep
        let west := bounds.west + (j : ℚ) * lngStep
        let east := bounds.west + ((j : ℚ) + 1) * lngStep
        let gridPolygon :=
          [(west, south), (east, south), (east, north), (west, north), (west, south)]
        if polygonIntersects polygon gridPolygon then some gridPolygon else none))
    if subAreas.isEmpty then [polygon] else subAreas

/-- Membership of a point in the axis-aligned bounding box of a ring of raw
`[lng, lat]` pairs — the bounding box in longitude-latitude space. -/
def inBBoxOfRing (pt : ℚ × ℚ) (ring : List (ℚ × ℚ)) : Bool :=
  decide (listMin (ring.map Prod.fst) ≤ pt.1) &&
  decide (pt.1 ≤ listMax (ring.map Prod.fst)) &&
  decide (listMin (ring.map Prod.snd) ≤ pt.2) &&
  decide (pt.2 ≤ listMax (ring.map Prod.snd))

/-- A closed rectangular ring of `[lng, lat]` pairs spanning longitudes 0-4
and latitudes 0-1: shoelace area 4, so with `maxArea = 1` it must be
partitioned (`gridSize = 2`). -/
def partitionCexRing : List (ℚ × ℚ) := [(0, 0), (4, 0), (4, 1), (0, 1), (0, 0)]

/-- Evaluation for C6 at `partitionCexRing` with `maxArea = 1`: the claim's
algorithm would tile the bounding box (longitudes 0-4, latitudes 0-1) with
4 grid cells, all kept; the code instead tiles the axis-swapped box and
keeps only 2 cells, whose vertices (such as `(0, 2)`) do not even lie in
the polygon's bounding box. -/
theorem C6_partition_swapped_axes_eval :
    calculatePolygonArea partitionCexRing = 4 ∧
    dividePolygonIntoSubAreas partitionCexRing 1 =
      [[(0, 0), (1/2, 0), (1/2, 2), (0, 2), (0, 0)],
       [(1/2, 0), (1, 0), (1, 2), (1/2, 2), (1/2, 0)]] ∧
    (dividePolygonIntoSubAreas partitionCexRing 1).length = 2 ∧
    inBBoxOfRing (0, 2) partitionCexRing = false := by
  have he : dividePolygonIntoSubAreas partitionCexRing 1 =
      [[(0, 0), (1/2, 0), (1/2, 2), (0, 2), (0, 0)],
       [(1/2, 0), (1, 0), (1, 2), (1/2, 2), (1/2, 0)]] := by
    norm_num [dividePolygonIntoSubAreas, partitionCexRing, calculatePolygonArea,
      cyclePairs, jsAbs, ringBoundsLeaflet, listMin, listMax, polygonIntersects,
      ceilSqrt, List.range_succ, List.filter, List.flatMap, List.filterMap]
  refine ⟨?_, he, ?_, ?_⟩
  · norm_num [calculatePolygonArea, partitionCexRing, cyclePairs, jsAbs]
  · rw [he]
    rfl
  · norm_num [inBBoxOfRing, partitionCexRing, listMin, listMax]

/-- A closed rectangular ring spanning longitudes 0-6 and latitudes 0-1:
area 6, `gridSize = 3` at `maxArea = 1`. -/
def coverageCexRing : List (ℚ × ℚ) := [(0, 0), (6, 0), (6, 1), (0, 1), (0, 0)]

/-- Evaluation for C7 at `coverageCexRing` with `maxArea = 1`: the returned
list is non-empty, but the point `(3, 1/2)` of the source polygon's
longitude-latitude bounding box lies in the bounding box of none of the
returned sub-polygons, so the union of their bounding boxes does not cover
the source bounding box. -/
theorem C7_partition_coverage_fails_eval :
    dividePolygonIntoSubAreas coverageCexRing 1 ≠ [] ∧
    inBBoxOfRing (3, 1/2) coverageCexRing = true ∧
    (dividePolygonIntoSubAreas coverageCexRing 1).all
      (fun sub => !(inBBoxOfRing (3, 1/2) sub)) = true := by
  have he : dividePolygonIntoSubAreas coverageCexRing 1 =
      [[(0, 0), (1/3, 0), (1/3, 2), (0, 2), (0, 0)],
       [(1/3, 0), (2/3, 0), (2/3, 2), (1/3, 2), (1/3, 0)],
       [(2/3, 0), (1, 0), (1, 2), (2/3, 2), (2/3, 0)]] := by
    norm_num [dividePolygonIntoSubAreas, coverageCexRing, calculatePolygonArea,
      cyclePairs, jsAbs, ringBoundsLeaflet, listMin, listMax, polygonIntersects,
      ceilSqrt, List.range_succ, List.filter, List.flatMap, List.filterMap]
  refine ⟨?_, ?_, ?_⟩
  · rw [he]
    simp
  · norm_num [inBBoxOfRing, coverageCexRing, listMin, listMax]
  · rw [he]
    norm_num [inBBoxOfRing, listMin, listMax, List.all_cons, List.all_nil]
